import Mathlib

/-!
Verification of the resume-analysis workflow of the Naptha repository.

The definitions below are a shallow embedding of the Python sources under
`src/my_agent/`: each Lean definition carries a comment naming the Python
function it embeds.  External effects (HTTP requests to the GitHub API and
the structured-output model call) are modelled by an explicit environment
`Env`, and every embedded function returns the list of external calls it
issued alongside its `Except`-wrapped result, so that call-count claims can
be stated.  Python exceptions (`NameError`, `KeyError`, `AttributeError`)
are modelled by the error type `PyError`.
-/

namespace Naptha

/-- Python values a gate helper can return: a `bool`, or `None`
(`check_contribution_count` returns `None` on a non-200 response). -/
inductive PyVal where
  | bool (b : Bool)
  | none
deriving DecidableEq

/-- Python truthiness, as used by `if not ...` in `validate_github`:
`None` is falsy. -/
def PyVal.truthy : PyVal → Bool
  | .bool b => b
  | .none => false

/-- Python exceptions that the embedded code can raise. -/
inductive PyError where
  | nameError (n : String)
  | keyError (k : String)
  | attributeError (a : String)
  | requestException (msg : String)
deriving DecidableEq

/-- External calls the subgraph nodes can issue: the GitHub existence check
(`requests.get` on `/users/...`), the GraphQL contribution query
(`requests.post` on `/graphql`), and the scoring-model invocation. -/
inductive ExtCall where
  | usersGet (username : String)
  | graphqlPost (username : String)
  | modelInvoke (prompt : String)
deriving DecidableEq

/-- `True` exactly for the two GitHub gate calls (existence / activity). -/
def ExtCall.isGateCall : ExtCall → Bool
  | .usersGet _ => true
  | .graphqlPost _ => true
  | .modelInvoke _ => false

/-- Embeds `GraderOutput` of `states/subgraph_states.py` (lines 27-36): the
structured output schema has exactly the three integer sub-score fields. -/
structure GraderOutput where
  technical_expertise : Int
  practical_experience : Int
  job_alignment : Int
deriving DecidableEq

/-- Python attribute lookup on a `GraderOutput` instance: only the three
declared fields exist; any other attribute raises `AttributeError`. -/
def GraderOutput.getattr (g : GraderOutput) : String → Except PyError Int
  | "technical_expertise" => .ok g.technical_expertise
  | "practical_experience" => .ok g.practical_experience
  | "job_alignment" => .ok g.job_alignment
  | n => .error (.attributeError n)

/-- The external world: HTTP status (or transport exception) of the two
GitHub queries, the parsed `totalContributions` value returned on a 200
GraphQL response, and the black-box structured-output model call. -/
structure Env where
  usersGetStatus : String → Except PyError Nat
  graphqlStatus : String → Except PyError Nat
  totalContributions : String → Int
  grade : String → GraderOutput

/-- Embeds `AnalysisState` of `states/subgraph_states.py` (lines 6-25).
`final_score` is a Python float, modelled as `Rat`. -/
structure AnalysisState where
  job_name_subgraph : String
  job_info_subgraph : String
  is_valid : Bool
  applicant_id : String
  github_username : String
  resume : String
  final_score : Rat
deriving DecidableEq

/-- The state update `{"is_valid": ...}` returned by `validate_github`. -/
structure GateUpdate where
  is_valid : Bool
deriving DecidableEq

/-- The state update `{"final_score": ...}` returned by `assess_candidate`. -/
structure ScoreUpdate where
  final_score : Rat
deriving DecidableEq

/-- Embeds `check_user_exists` of `nodes/subgraph_nodes.py` (lines 29-31):
issues `requests.get` on `/users/{username}` and returns
`status_code == 200`; a transport exception propagates. -/
def check_user_exists (env : Env) (username : String) :
    Except PyError PyVal × List ExtCall :=
  match env.usersGetStatus username with
  | .error e => (.error e, [.usersGet username])
  | .ok status => (.ok (.bool (status == 200)), [.usersGet username])

/-- Embeds `check_contribution_count` of `nodes/subgraph_nodes.py`
(lines 34-62): issues the GraphQL POST; on a 200 response returns
`total_contributions > 2`; on any other status returns Python `None`;
a transport exception propagates. -/
def check_contribution_count (env : Env) (username : String) :
    Except PyError PyVal × List ExtCall :=
  match env.graphqlStatus username with
  | .error e => (.error e, [.graphqlPost username])
  | .ok status =>
    if status == 200 then
      (.ok (.bool (env.totalContributions username > 2)), [.graphqlPost username])
    else
      (.ok .none, [.graphqlPost username])

/-- The helper functions this module binds at top level, keyed by name.
`nodes/subgraph_nodes.py` defines `check_user_exists` (line 29) and
`check_contribution_count` (line 34); no name with a leading underscore is
defined anywhere in the module. -/
inductive HelperFn where
  | userExists
  | contribCount
deriving DecidableEq

/-- Python global-namespace lookup for the gate helpers of
`nodes/subgraph_nodes.py`: only the two names without a leading underscore
are bound. -/
def helperBinding : String → Option HelperFn
  | "check_user_exists" => some .userExists
  | "check_contribution_count" => some .contribCount
  | _ => none

/-- Calling a module-level name: Python resolves the name in the module
globals first (before evaluating the argument); an unbound name raises
`NameError` and no request is issued. -/
def callGlobal (env : Env) (name : String) (arg : String) :
    Except PyError PyVal × List ExtCall :=
  match helperBinding name with
  | some .userExists => check_user_exists env arg
  | some .contribCount => check_contribution_count env arg
  | none => (.error (.nameError name), [])

/-- Embeds `validate_github` of `nodes/subgraph_nodes.py` (lines 21-26),
which calls the names `_check_user_exists` and `_check_contribution_count`
(with a leading underscore) on the state's `github_username`. -/
def validate_github (env : Env) (s : AnalysisState) :
    Except PyError GateUpdate × List ExtCall :=
  match callGlobal env ("_check_user_exists") s.github_username with
  | (.error e, cs) => (.error e, cs)
  | (.ok v, cs) =>
    if v.truthy = false then (.ok ⟨false⟩, cs)
    else
      match callGlobal env ("_check_contribution_count") s.github_username with
      | (.error e, cs2) => (.error e, cs ++ cs2)
      | (.ok v2, cs2) =>
        if v2.truthy = false then (.ok ⟨false⟩, cs ++ cs2)
        else (.ok ⟨true⟩, cs ++ cs2)

/-- The same body as `validate_github`, with the underscore slip repaired:
it calls the helpers that `nodes/subgraph_nodes.py` actually defines
(`check_user_exists`, `check_contribution_count`).  Used to exhibit what
the evidently intended gate does where the shipped one raises `NameError`. -/
def validate_github_intended (env : Env) (s : AnalysisState) :
    Except PyError GateUpdate × List ExtCall :=
  match callGlobal env ("check_user_exists") s.github_username with
  | (.error e, cs) => (.error e, cs)
  | (.ok v, cs) =>
    if v.truthy = false then (.ok ⟨false⟩, cs)
    else
      match callGlobal env ("check_contribution_count") s.github_username with
      | (.error e, cs2) => (.error e, cs ++ cs2)
      | (.ok v2, cs2) =>
        if v2.truthy = false then (.ok ⟨false⟩, cs ++ cs2)
        else (.ok ⟨true⟩, cs ++ cs2)

/-- Embeds `route_analysis` of `nodes/subgraph_nodes.py` (lines 15-18). -/
def route_analysis (s : AnalysisState) : String :=
  if s.is_valid then ("passed") else ("failed")

theorem validate_github_always_name_error (env : Env) (s : AnalysisState) :
    validate_github env s = (.error (.nameError ("_check_user_exists")), []) :=
  rfl

/-- A piece of a Python format template: literal text or a `\x7bname\x7d`
placeholder. -/
inductive TmplPart where
  | lit (s : String)
  | ph (name : String)
deriving DecidableEq

/-- Embeds the `job_grader` template of `prompts.py` (lines 1-14), split at
its three placeholders `job_name`, `job_info` and `applicant`. -/
def job_grader : List TmplPart := [
  .lit ("\nYou are tasked with grading the applicant information provided in the <resume> XML tag for a "),
  .ph ("job_name"),
  .lit (" position at Naptha AI.\nThe job description will be provided in the <job_info> XML tag.\nGrade the applicant on a scale of 1-100 based on the following criterea:\n- technical_expertise:\n- practical_experience: \n- job_alignment: \n\n*Job description*\n<job_info>"),
  .ph ("job_info"),
  .lit ("</job_info>\n\n*Applicant information*\n<resume>"),
  .ph ("applicant"),
  .lit ("</resume>\n")]

/-- Python `str.format(**kw)`: substitutes placeholders left to right and
raises `KeyError` at the first placeholder missing from the keyword
arguments. -/
def pyFormat : List TmplPart → List (String × String) → Except PyError String
  | [], _ => .ok ("")
  | .lit t :: rest, kw => (pyFormat rest kw).map (fun r => t ++ r)
  | .ph n :: rest, kw =>
    match kw.lookup n with
    | Option.none => .error (.keyError n)
    | some v => (pyFormat rest kw).map (fun r => v ++ r)

/-- The keyword arguments `assess_candidate` passes to `job_grader.format`
(`nodes/subgraph_nodes.py` lines 68-69): only `job_name` and `job_info`. -/
def assess_kwargs (s : AnalysisState) : List (String × String) :=
  [(("job_name"), s.job_name_subgraph), (("job_info"), s.job_info_subgraph)]

/-- Embeds `assess_candidate` of `nodes/subgraph_nodes.py` (lines 66-74):
formats the prompt, invokes the structured-output model, and returns
`{"final_score": response.final_score}`. -/
def assess_candidate (env : Env) (s : AnalysisState) :
    Except PyError ScoreUpdate × List ExtCall :=
  match pyFormat job_grader (assess_kwargs s) with
  | .error e => (.error e, [])
  | .ok prompt =>
    match (env.grade prompt).getattr ("final_score") with
    | .error e => (.error e, [.modelInvoke prompt])
    | .ok v => (.ok ⟨(v : Rat)⟩, [.modelInvoke prompt])

theorem assess_candidate_always_key_error (env : Env) (s : AnalysisState) :
    assess_candidate env s = (.error (.keyError ("applicant")), []) :=
  rfl

/-- A state update to the parent `AgentState`: the only reducer-merged
channel is `classification` (list append, `states/main_states.py` line 80). -/
structure AgentUpdate where
  classification : List (String × Bool)
deriving DecidableEq

/-- Embeds `subgraph_output_node` of `nodes/subgraph_nodes.py` (lines 78-79):
its body is a bare `pass`, i.e. it returns Python `None` and so writes no
state update at all. -/
def subgraph_output_node (_ : AnalysisState) : Option AgentUpdate :=
  Option.none

/-- Applying the `{"is_valid": ...}` update of the validation node. -/
def applyGate (s : AnalysisState) (u : GateUpdate) : AnalysisState :=
  { s with is_valid := u.is_valid }

/-- Applying the `{"final_score": ...}` update of the assessor node. -/
def applyScore (s : AnalysisState) (u : ScoreUpdate) : AnalysisState :=
  { s with final_score := u.final_score }

/-- Node names of the technical subgraph
(`resume_analysis.py`, `create_tech_analysis_subgraph`, lines 92-111). -/
def tech_subgraph_nodes : List String :=
  [("github_validation_node"), ("candidate_assessor_node"), ("subgraph_output_node")]

/-- Entry point of the technical subgraph (`resume_analysis.py` line 109). -/
def tech_subgraph_entry : String := "github_validation_node"

/-- Node names of the non-technical subgraph
(`resume_analysis.py`, `create_non_tech_analysis_subgraph`, lines 113-123):
there is no validation node. -/
def non_tech_subgraph_nodes : List String :=
  [("candidate_assessor_node"), ("subgraph_output_node")]

/-- Entry point of the non-technical subgraph
(`resume_analysis.py` line 121): the assessor, not a gate. -/
def non_tech_subgraph_entry : String := "candidate_assessor_node"

/-- The technical subgraph from the conditional edge after the validation
node (`resume_analysis.py` lines 100-110): `route_analysis` maps
`"passed"` to `candidate_assessor_node` and `"failed"` directly to
`subgraph_output_node`; the assessor is followed by the output node
(line 107).  Returns the state at the terminal node together with the
(absent) update that node emits, plus all external calls issued. -/
def techSubgraphFromGate (env : Env) (s : AnalysisState) :
    Except PyError (AnalysisState × Option AgentUpdate) × List ExtCall :=
  if route_analysis s = "passed" then
    match assess_candidate env s with
    | (.error e, cs) => (.error e, cs)
    | (.ok u, cs) =>
      ((.ok (applyScore s u, subgraph_output_node (applyScore s u))), cs)
  else
    ((.ok (s, subgraph_output_node s)), [])

/-- One run of the technical subgraph (`create_tech_analysis_subgraph`):
validation node, then the conditional edge. -/
def runTechSubgraph (env : Env) (s : AnalysisState) :
    Except PyError (AnalysisState × Option AgentUpdate) × List ExtCall :=
  match validate_github env s with
  | (.error e, cs) => (.error e, cs)
  | (.ok u, cs) =>
    match techSubgraphFromGate env (applyGate s u) with
    | (r, cs2) => (r, cs ++ cs2)

/-- One run of the non-technical subgraph
(`create_non_tech_analysis_subgraph`): the assessor node, then the output
node; no validation node exists. -/
def runNonTechSubgraph (env : Env) (s : AnalysisState) :
    Except PyError (AnalysisState × Option AgentUpdate) × List ExtCall :=
  match assess_candidate env s with
  | (.error e, cs) => (.error e, cs)
  | (.ok u, cs) =>
    ((.ok (applyScore s u, subgraph_output_node (applyScore s u))), cs)

/-- The `job_data` dict read by `preprocessor`
(`nodes/main_nodes.py` lines 114-116). -/
structure JobData where
  job_id : String
  name : String
  info : String
deriving DecidableEq

/-- One raw applicant as read by `initiate_analysis_nodes`
(`nodes/main_nodes.py` lines 170-172): keys `app_id`, `github`, `resume`. -/
structure Applicant where
  app_id : String
  github : String
  resume : String
deriving DecidableEq

/-- The input as read by `preprocessor` (`nodes/main_nodes.py`
lines 114-117): keys `job_data` and `applicants`. -/
structure InputState where
  job_data : JobData
  applicants : List Applicant
deriving DecidableEq

/-- The parent state as written by `preprocessor`
(`nodes/main_nodes.py` lines 118-124). -/
structure AgentState where
  job_id : String
  job_name : String
  job_info : String
  applicants : List Applicant
  classification : List (String × Bool)
deriving DecidableEq

/-- The output state as written by `output_node`
(`nodes/main_nodes.py` lines 179-184). -/
structure OutputState where
  job_id : String
  final_classification : List (String × Bool)
deriving DecidableEq

/-- Embeds `preprocessor` of `nodes/main_nodes.py` (lines 66-124). -/
def preprocessor (inp : InputState) : AgentState :=
  { job_id := inp.job_data.job_id
    job_name := inp.job_data.name
    job_info := inp.job_data.info
    applicants := inp.applicants
    classification := [] }

/-- Embeds `initiate_analysis_nodes` of `nodes/main_nodes.py`
(lines 127-176): one `Send` per applicant, with `is_valid=True` and
`final_score=0.0` in every spawned state. -/
def initiate_analysis_nodes (ag : AgentState) : List AnalysisState :=
  ag.applicants.map (fun a =>
    { job_name_subgraph := ag.job_name
      job_info_subgraph := ag.job_info
      is_valid := true
      applicant_id := a.app_id
      github_username := a.github
      resume := a.resume
      final_score := 0 })

/-- Embeds `output_node` of `nodes/main_nodes.py` (lines 179-184). -/
def output_node (ag : AgentState) : OutputState :=
  { job_id := ag.job_id, final_classification := ag.classification }

/-- Executes the fanned-out subgraph instances.  LangGraph propagates an
exception raised inside any branch: the whole `invoke` raises and no
partial batch result is returned, which is modelled by the first error
aborting the fold. -/
def runSends (env : Env)
    (sub : Env → AnalysisState →
      Except PyError (AnalysisState × Option AgentUpdate) × List ExtCall) :
    List AnalysisState → Except PyError (List AgentUpdate) × List ExtCall
  | [] => (.ok [], [])
  | s :: rest =>
    match sub env s with
    | (.error e, cs) => (.error e, cs)
    | (.ok (_, upd), cs) =>
      match runSends env sub rest with
      | (.error e, cs2) => (.error e, cs ++ cs2)
      | (.ok upds, cs2) => (.ok (upd.toList ++ upds), cs ++ cs2)

/-- The `add`-reducer merge of the `classification` channel
(`states/main_states.py` line 80): list append over the emitted updates. -/
def mergeClassification (upds : List AgentUpdate) : List (String × Bool) :=
  upds.foldl (fun acc u => acc ++ u.classification) []

/-- Embeds the compiled graph of `get_resume_analysis_agent` of
`resume_analysis.py` (lines 44-90): `preprocessor`, then the `Send`
fan-out into the tech or non-tech subgraph, then `output_node` on the
merged state. -/
def get_resume_analysis_agent (tech : Bool) (env : Env) (inp : InputState) :
    Except PyError OutputState × List ExtCall :=
  match runSends env (if tech then runTechSubgraph else runNonTechSubgraph)
      (initiate_analysis_nodes (preprocessor inp)) with
  | (.error e, cs) => (.error e, cs)
  | (.ok upds, cs) =>
    ((.ok (output_node { preprocessor inp with
        classification :=
          (preprocessor inp).classification ++ mergeClassification upds })), cs)

/-! Concrete fixtures used by the witnesses and counterexamples. -/

/-- A healthy environment: every user exists (status 200), the GraphQL
query succeeds with 5 contributions, and the model grades (80, 90, 100). -/
def env0 : Env :=
  { usersGetStatus := fun _ => .ok 200
    graphqlStatus := fun _ => .ok 200
    totalContributions := fun _ => 5
    grade := fun _ => ⟨80, 90, 100⟩ }

/-- As `env0`, but the GraphQL activity query fails with HTTP 500. -/
def env500 : Env :=
  { usersGetStatus := fun _ => .ok 200
    graphqlStatus := fun _ => .ok 500
    totalContributions := fun _ => 5
    grade := fun _ => ⟨80, 90, 100⟩ }

/-- As `env0`, but with exactly 3 contributions (just above threshold). -/
def env3 : Env :=
  { usersGetStatus := fun _ => .ok 200
    graphqlStatus := fun _ => .ok 200
    totalContributions := fun _ => 3
    grade := fun _ => ⟨80, 90, 100⟩ }

/-- As `env0`, but with exactly 2 contributions (at the threshold). -/
def env2 : Env :=
  { usersGetStatus := fun _ => .ok 200
    graphqlStatus := fun _ => .ok 200
    totalContributions := fun _ => 2
    grade := fun _ => ⟨80, 90, 100⟩ }

/-- As `env0`, but the user does not exist (status 404). -/
def envNoUser : Env :=
  { usersGetStatus := fun _ => .ok 404
    graphqlStatus := fun _ => .ok 200
    totalContributions := fun _ => 5
    grade := fun _ => ⟨80, 90, 100⟩ }

/-- An applicant state with an empty GitHub handle. -/
def sEmptyHandle : AnalysisState :=
  { job_name_subgraph := "Backend Engineer"
    job_info_subgraph := "desc"
    is_valid := true
    applicant_id := "A2"
    github_username := ""
    resume := "resume two"
    final_score := 0 }

/-- An applicant state with handle `alice`. -/
def sAlice : AnalysisState :=
  { job_name_subgraph := "Backend Engineer"
    job_info_subgraph := "desc"
    is_valid := true
    applicant_id := "A1"
    github_username := "alice"
    resume := "resume one"
    final_score := 0 }

/-- An applicant state with handle `bob`. -/
def sBob : AnalysisState :=
  { job_name_subgraph := "Backend Engineer"
    job_info_subgraph := "desc"
    is_valid := true
    applicant_id := "A3"
    github_username := "bob"
    resume := "resume three"
    final_score := 0 }

/-- A gate-passed applicant state, as it would stand at the scoring node. -/
def sCarol : AnalysisState :=
  { job_name_subgraph := "Backend Engineer"
    job_info_subgraph := "desc"
    is_valid := true
    applicant_id := "A4"
    github_username := "carol"
    resume := "resume four"
    final_score := 0 }

/-- Another gate-passed applicant state, with distinct resume text. -/
def sDave : AnalysisState :=
  { job_name_subgraph := "Backend Engineer"
    job_info_subgraph := "desc"
    is_valid := true
    applicant_id := "A5"
    github_username := "dave"
    resume := "resume five"
    final_score := 0 }

/-- A one-applicant input batch. -/
def inp1 : InputState :=
  { job_data := ⟨"J1", "Backend Engineer", "desc"⟩
    applicants := [⟨"A1", "alice", "resume text"⟩] }

/-- A two-applicant input batch. -/
def inp2 : InputState :=
  { job_data := ⟨"J1", "Backend Engineer", "desc"⟩
    applicants := [⟨"A1", "alice", "resume one"⟩, ⟨"A2", "bob", "resume two"⟩] }

/-! The claims. -/

/-- C3: for every input state, `validate_github` raises a `NameError`
before issuing any external query, because the helper names it calls
(`_check_user_exists`, `_check_contribution_count`) are not bound in the
module — the defined helpers are `check_user_exists` and
`check_contribution_count` without the leading underscore — so the gate
never returns a pass or fail result. -/
theorem C3_gate_raises_name_error :
    (∀ env s, validate_github env s =
      (.error (.nameError ("_check_user_exists")), [])) ∧
    helperBinding ("_check_user_exists") = Option.none ∧
    helperBinding ("_check_contribution_count") = Option.none ∧
    helperBinding ("check_user_exists") = some .userExists ∧
    helperBinding ("check_contribution_count") = some .contribCount :=
  ⟨fun env s => validate_github_always_name_error env s, rfl, rfl, rfl, rfl⟩

/-- C4 (counterexample): for the concrete applicant with an empty
`github_username`, the gate does not fail with `is_valid = false` as the
claim states: it raises a `NameError` instead. -/
theorem C4_counterexample :
    (validate_github env0 sEmptyHandle).1 =
      .error (.nameError ("_check_user_exists")) ∧
    (validate_github env0 sEmptyHandle).1 ≠ .ok ⟨false⟩ := by
  refine ⟨rfl, fun hc => ?_⟩
  have hc2 : (Except.error (PyError.nameError ("_check_user_exists")) :
      Except PyError GateUpdate) = .ok ⟨false⟩ := hc
  exact Except.noConfusion hc2

/-- C4 (amended): for every applicant whose `github_username` is empty,
zero external calls are issued, but the gate does not fail with final
score 0.0: `validate_github` raises a `NameError` (the helper name
`_check_user_exists` is undefined) before issuing any call. -/
theorem C4_empty_handle_no_calls (env : Env) (s : AnalysisState)
    (_ : s.github_username = "") :
    validate_github env s = (.error (.nameError ("_check_user_exists")), []) :=
  validate_github_always_name_error env s

/-- C4 witness: the amended theorem at the concrete empty-handle state. -/
theorem C4_witness :
    validate_github env0 sEmptyHandle =
      (.error (.nameError ("_check_user_exists")), []) :=
  C4_empty_handle_no_calls env0 sEmptyHandle rfl

/-- C5: a failure of the activity-count query is not surfaced as a
distinct error.  At the failing input (existing user `alice`, GraphQL
query failing with HTTP 500): the shipped gate raises `NameError` before
any query; `check_contribution_count` itself swallows the failed fetch
and returns Python `None`; and the gate body with the helper names
corrected coerces that `None` to a clean fail (`is_valid = false`) rather
than surfacing an error. -/
theorem C5_transport_failure_not_surfaced :
    validate_github env500 sAlice =
      (.error (.nameError ("_check_user_exists")), []) ∧
    check_contribution_count env500 ("alice") =
      (.ok .none, [.graphqlPost ("alice")]) ∧
    validate_github_intended env500 sAlice =
      ((.ok ⟨false⟩), [.usersGet ("alice"), .graphqlPost ("alice")]) := by
  exact ⟨rfl, rfl, rfl⟩

/-- C6: the gate never passes as claimed — at an input where the user
exists and has 3 contributions it raises `NameError` — while the gate
body with the helper names corrected behaves exactly as the claim states:
3 contributions pass, exactly 2 fail, and a non-existent user
short-circuits without the activity query. -/
theorem C6_gate_never_passes :
    validate_github env3 sBob =
      (.error (.nameError ("_check_user_exists")), []) ∧
    validate_github_intended env3 sBob =
      ((.ok ⟨true⟩), [.usersGet ("bob"), .graphqlPost ("bob")]) ∧
    validate_github_intended env2 sBob =
      ((.ok ⟨false⟩), [.usersGet ("bob"), .graphqlPost ("bob")]) ∧
    validate_github_intended envNoUser sBob =
      ((.ok ⟨false⟩), [.usersGet ("bob")]) := by
  exact ⟨rfl, rfl, rfl, rfl⟩

/-- C2: the scoring step does not return the mean of the three
sub-scores.  At a gate-passed applicant it raises `KeyError` formatting
the prompt (the template's `applicant` placeholder is never supplied) and
the model is not invoked; and even past that, `GraderOutput` defines no
`final_score` attribute, so `response.final_score` on sub-scores
(80, 90, 100) would raise `AttributeError` — no mean is computed. -/
theorem C2_no_mean_computed :
    assess_candidate env0 sCarol = (.error (.keyError ("applicant")), []) ∧
    GraderOutput.getattr ⟨80, 90, 100⟩ ("final_score") =
      .error (.attributeError ("final_score")) := by
  exact ⟨rfl, rfl⟩

/-- C8: the resume text is not part of the scoring input.  The keyword
arguments of the prompt format call are exactly `job_name` and
`job_info` — the `applicant` slot meant for the resume is never supplied
— and therefore, at a concrete gate-passed applicant, the format call
raises `KeyError` and the Scoring Gateway is invoked zero times. -/
theorem C8_resume_not_in_scoring_input :
    (∀ s, ((assess_kwargs s).map Prod.fst = [("job_name"), ("job_info")]) ∧
      (assess_kwargs s).lookup ("applicant") = Option.none) ∧
    assess_candidate env0 sDave = (.error (.keyError ("applicant")), []) :=
  ⟨fun _ => ⟨rfl, rfl⟩, rfl⟩

/-- C7: at the conditional edge after the validation node, a failed gate
result (`is_valid = false`) routes directly to the terminal output node:
the run issues no external call at all — in particular the Scoring
Gateway is invoked zero times — and the state reaches the terminal node
unchanged, with the `final_score` of 0.0 set at fan-out. -/
theorem C7_gated_out_skips_scoring (env : Env) (ag : AgentState)
    (s0 : AnalysisState) (hmem : s0 ∈ initiate_analysis_nodes ag)
    (u : GateUpdate) (hu : u.is_valid = false) :
    techSubgraphFromGate env (applyGate s0 u) =
      ((.ok (applyGate s0 u, Option.none)), []) ∧
    (applyGate s0 u).final_score = 0 := by
  constructor
  · have h1 : route_analysis (applyGate s0 u) = "failed" := by
      simp [route_analysis, applyGate, hu]
    unfold techSubgraphFromGate
    rw [h1, if_neg (by decide : ¬ ("failed" : String) = "passed")]
    rfl
  · obtain ⟨a, _, rfl⟩ := List.mem_map.mp hmem
    rfl

/-- C7 witness: the spawned state of the one applicant of `inp1`, with a
failed gate result. -/
theorem C7_witness :
    techSubgraphFromGate env0
        (applyGate { job_name_subgraph := "Backend Engineer"
                     job_info_subgraph := "desc"
                     is_valid := true
                     applicant_id := "A1"
                     github_username := "alice"
                     resume := "resume text"
                     final_score := 0 } ⟨false⟩) =
      ((.ok (applyGate { job_name_subgraph := "Backend Engineer"
                         job_info_subgraph := "desc"
                         is_valid := true
                         applicant_id := "A1"
                         github_username := "alice"
                         resume := "resume text"
                         final_score := 0 } ⟨false⟩, Option.none)), []) ∧
    (applyGate { job_name_subgraph := "Backend Engineer"
                 job_info_subgraph := "desc"
                 is_valid := true
                 applicant_id := "A1"
                 github_username := "alice"
                 resume := "resume text"
                 final_score := 0 } ⟨false⟩).final_score = 0 :=
  C7_gated_out_skips_scoring env0 (preprocessor inp1) _ (by decide) ⟨false⟩ rfl

/-- C10: the non-technical subgraph skips the gate entirely: its entry
point is the assessor, it contains no validation node, a run issues no
existence or activity call for any state, and fan-out marks every spawned
state `is_valid = true`. -/
theorem C10_non_tech_gate_skipped :
    non_tech_subgraph_entry = ("candidate_assessor_node") ∧
    ("github_validation_node") ∉ non_tech_subgraph_nodes ∧
    (∀ env s, ((runNonTechSubgraph env s).2.filter ExtCall.isGateCall) = []) ∧
    (∀ ag, ∀ st ∈ initiate_analysis_nodes ag, st.is_valid = true) := by
  refine ⟨rfl, by decide, fun env s => rfl, fun ag st hst => ?_⟩
  obtain ⟨a, _, rfl⟩ := List.mem_map.mp hst
  rfl

/-- C1: the batch does not produce one ScoreRecord per applicant.  The
terminal node emits no `(application_id, final_score)` pair at all (its
body is a bare `pass`), and at the concrete one-applicant batch both the
technical and the non-technical pipeline abort with an exception instead
of returning records. -/
theorem C1_no_records_emitted :
    (∀ s, subgraph_output_node s = Option.none) ∧
    get_resume_analysis_agent true env0 inp1 =
      (.error (.nameError ("_check_user_exists")), []) ∧
    get_resume_analysis_agent false env0 inp1 =
      (.error (.keyError ("applicant")), []) :=
  ⟨fun _ => rfl, rfl, rfl⟩

/-- C9 (counterexample): in the concrete two-applicant batch, the error
raised inside the first applicant's subgraph is not isolated: the whole
invoke returns the error — there is no batch output at all, so the second
applicant produces no score record. -/
theorem C9_counterexample :
    get_resume_analysis_agent true env0 inp2 =
      (.error (.nameError ("_check_user_exists")), []) ∧
    (get_resume_analysis_agent true env0 inp2).1.isOk = false ∧
    get_resume_analysis_agent false env0 inp2 =
      (.error (.keyError ("applicant")), []) :=
  ⟨rfl, rfl, rfl⟩

/-- C9 (amended): an error raised inside one applicant's subgraph
propagates out of the batch invocation and aborts it — no sibling score
records are returned; in the current code every subgraph raises
unconditionally, so every non-empty batch aborts with the first
applicant's exception. -/
theorem C9_error_aborts_batch (env : Env) (inp : InputState) (a : Applicant)
    (rest : List Applicant) (h : inp.applicants = a :: rest) :
    get_resume_analysis_agent true env inp =
      (.error (.nameError ("_check_user_exists")), []) ∧
    get_resume_analysis_agent false env inp =
      (.error (.keyError ("applicant")), []) := by
  obtain ⟨jd, apps⟩ := inp
  have h2 : apps = a :: rest := h
  subst h2
  exact ⟨rfl, rfl⟩

/-- C9 witness: the amended theorem at the concrete two-applicant batch. -/
theorem C9_witness :
    get_resume_analysis_agent true env0 inp2 =
      (.error (.nameError ("_check_user_exists")), []) ∧
    get_resume_analysis_agent false env0 inp2 =
      (.error (.keyError ("applicant")), []) :=
  C9_error_aborts_batch env0 inp2 ⟨"A1", "alice", "resume one"⟩
    [⟨"A2", "bob", "resume two"⟩] rfl

end Naptha
